import Mathlib

/-!
Verification of the hybrid-rendering core of the dashboard-react repository.

The TypeScript sources under src/lib/viz/hybrid are shallowly embedded:
JavaScript numbers are modelled as exact rationals (ℚ); `Date` values by
their millisecond timestamp (`getTime()`), also as ℚ; optional fields by
`Option`.  `Math.sqrt` never needs to be computed: every use in the source
only *compares* a square root against another quantity, and since sqrt is
strictly monotone each comparison is expressed by an equivalent polynomial
comparison on the squares (see `sqrtLtQ` and `absOverSqrtGT`).
-/

set_option maxHeartbeats 1000000
set_option maxRecDepth 100000

-- ============================================================================
-- DATA MODEL (src/lib/viz/hybrid/types.ts)
-- ============================================================================

/-- DataPoint: `{ x: number | Date; y: number; id?: string | number }`.
`x` is the time value in milliseconds; `metadata` is never read by the
embedded operations and is omitted. -/
structure DataPoint where
  x : ℚ
  y : ℚ
  id : Option String
deriving DecidableEq

/-- TimeSeriesPoint extends DataPoint with `x : Date`; with times embedded as
rationals the two types coincide. -/
abbrev TimeSeriesPoint := DataPoint

instance : Inhabited DataPoint := ⟨⟨0, 0, none⟩⟩

/-- SeriesData: `{ id, name, color, data, visible?: boolean }`. -/
structure SeriesData where
  id : String
  name : String
  color : String
  data : List DataPoint
  visible : Option Bool
deriving DecidableEq

/-- The skip test used by every renderer loop:
`if (!series.visible && series.visible !== undefined) continue` -
a series is skipped exactly when `visible` is present and false. -/
def seriesHidden (s : SeriesData) : Bool :=
  s.visible == some false

/-- Margin part of RenderContext. -/
structure Margin where
  top : ℚ
  right : ℚ
  bottom : ℚ
  left : ℚ

/-- RenderContext: width/height/margin plus the injected d3 scales,
modelled as pure functions ℚ → ℚ. -/
structure RenderContext where
  width : ℚ
  height : ℚ
  margin : Margin
  xScale : ℚ → ℚ
  yScale : ℚ → ℚ
  pixelRatio : ℚ

/-- HitTestResult `{ point, series?, distance, x, y }`.  The source stores
`distance = Math.sqrt(distSq)`; the embedding keeps the square (`distSq`),
which determines the distance uniquely and keeps everything rational. -/
structure HitTestResult where
  point : DataPoint
  series : Option String
  distSq : ℚ
  x : ℚ
  y : ℚ
deriving DecidableEq

-- ============================================================================
-- NUMERIC HELPERS (JS Math.* on rationals)
-- ============================================================================

/-- `values.reduce((a, b) => a + b, 0)`. -/
def sumQ (l : List ℚ) : ℚ := l.foldl (· + ·) 0

/-- `Math.min(...values)` for a non-empty spread.  Callers in the embedded
code only apply it to non-empty lists (JS would give Infinity on an empty
spread); the `[]` branch is unreachable there. -/
def minQ (l : List ℚ) : ℚ :=
  match l with
  | [] => 0
  | v :: vs => vs.foldl min v

/-- `Math.max(...values)` for a non-empty spread (see `minQ`). -/
def maxQ (l : List ℚ) : ℚ :=
  match l with
  | [] => 0
  | v :: vs => vs.foldl max v

/-- Decides `|num| / Math.sqrt(varr) > t` for `varr > 0` without leaving ℚ:
for `t < 0` it always holds, otherwise it is equivalent to
`num² > t² · varr` because sqrt is strictly monotone on nonnegatives. -/
def absOverSqrtGT (num varr t : ℚ) : Bool :=
  if t < 0 then true else decide (num * num > t * t * varr)

/-- Decides `Math.sqrt dsq < r` (for `dsq ≥ 0`) without leaving ℚ:
equivalent to `0 < r ∧ dsq < r²`. -/
def sqrtLtQ (dsq r : ℚ) : Bool :=
  decide (0 < r ∧ dsq < r * r)

-- ============================================================================
-- LOD MODULE (src/lib/viz/hybrid/lod.ts)
-- ============================================================================

/-- `outlierMethod: 'zscore' | 'iqr' | 'mad'`. -/
inductive OutlierMethod
  | zscore
  | iqr
  | mad
deriving DecidableEq

/-- LODConfig (lod.ts lines 12-30). -/
structure LODConfig where
  targetPoints : ℕ
  outlierThreshold : ℚ
  outlierMethod : OutlierMethod
  preserveMinMax : Bool
  preserveOutliers : Bool
  maxOutlierPercentage : ℚ
deriving DecidableEq

/-- DEFAULT_LOD_CONFIG (lod.ts lines 32-39). -/
def DEFAULT_LOD_CONFIG : LODConfig :=
  { targetPoints := 1000
    outlierThreshold := 3
    outlierMethod := .zscore
    preserveMinMax := true
    preserveOutliers := true
    maxOutlierPercentage := 10 }

/-- LODBucket (types.ts lines 280-288). -/
structure LODBucket where
  startTime : ℚ
  endTime : ℚ
  min : ℚ
  max : ℚ
  avg : ℚ
  count : ℕ
  outliers : List TimeSeriesPoint
  representative : TimeSeriesPoint
deriving DecidableEq

/-- LODResult (types.ts lines 290-297); `level` is the numeric LODLevel. -/
structure LODResult where
  buckets : List LODBucket
  totalPoints : ℕ
  sampledPoints : ℕ
  compressionRatio : ℚ
  level : ℕ
  outlierCount : ℕ
deriving DecidableEq

/-- The "nice" interval ladder of calculateBucketSize (lod.ts lines 63-69). -/
def niceIntervals : List ℚ :=
  [1, 5, 10, 50, 100, 500,
   1000, 5000, 10000, 30000,
   60000, 300000, 600000,
   3600000, 18000000, 36000000,
   86400000, 604800000]

/-- calculateBucketSize (lod.ts lines 48-84).  The loop keeps the first
interval with strictly smaller distance to `bucketMs`, starting from
`closest = intervals[0] = 1`. -/
def calculateBucketSize (timeRange : ℚ × ℚ) (targetPoints : ℕ) : ℚ :=
  let start := timeRange.1
  let stop := timeRange.2
  let duration := stop - start
  if duration = 0 ∨ targetPoints = 0 then 1
  else
    let bucketMs := duration / targetPoints
    let closest := (niceIntervals.foldl
      (fun acc interval =>
        if |bucketMs - interval| < acc.2 then (interval, |bucketMs - interval|) else acc)
      (1, |bucketMs - 1|)).1
    max 1 closest

/-- Bucket index of a point: `Math.floor((time - start) / bucketSize)`
(lod.ts line 99). -/
def bucketIndexOf (start bucketSize : ℚ) (p : TimeSeriesPoint) : ℤ :=
  ⌊(p.x - start) / bucketSize⌋

/-- The points filed under one bucket index by `bucketPoints` (lod.ts
lines 89-108): a JS Map entry holds the matching points in input order. -/
def pointsInBucket (points : List TimeSeriesPoint) (bucketSize start : ℚ) (i : ℤ) :
    List TimeSeriesPoint :=
  points.filter (fun p => bucketIndexOf start bucketSize p = i)

/-- `Array.from(buckets.keys()).sort((a, b) => a - b)` (lod.ts line 332):
the distinct bucket indices in ascending order. -/
def sortedBucketIndices (points : List TimeSeriesPoint) (bucketSize start : ℚ) : List ℤ :=
  ((points.map (bucketIndexOf start bucketSize)).dedup).insertionSort (· ≤ ·)

/-- detectOutliersZScore (lod.ts lines 117-131).  `std === 0` iff the
variance is 0; the z-score comparison `|y - mean| / std > threshold` is
decided by `absOverSqrtGT` on the variance. -/
def detectOutliersZScore (points : List TimeSeriesPoint) (threshold : ℚ) :
    List TimeSeriesPoint :=
  if points.length < 3 then []
  else
    let values := points.map (·.y)
    let mean := sumQ values / values.length
    let variance := sumQ (values.map (fun v => (v - mean) ^ 2)) / values.length
    if variance = 0 then []
    else points.filter (fun p => absOverSqrtGT (p.y - mean) variance threshold)

/-- detectOutliersIQR (lod.ts lines 136-147).  `Math.floor(n * 0.25)` and
`Math.floor(n * 0.75)` are the natural-number divisions `n / 4` and
`3 * n / 4`; the indices are in range for `n ≥ 4`, so the `getD` default
is unreachable. -/
def detectOutliersIQR (points : List TimeSeriesPoint) : List TimeSeriesPoint :=
  if points.length < 4 then []
  else
    let values := (points.map (·.y)).insertionSort (· ≤ ·)
    let q1 := values.getD (values.length / 4) 0
    let q3 := values.getD (3 * values.length / 4) 0
    let iqr := q3 - q1
    let lowerBound := q1 - 3/2 * iqr
    let upperBound := q3 + 3/2 * iqr
    points.filter (fun p => decide (p.y < lowerBound ∨ p.y > upperBound))

/-- detectOutliersMAD (lod.ts lines 152-167).  The MAD itself is a median
of absolute deviations, so no square root appears and the comparison is
exact division. -/
def detectOutliersMAD (points : List TimeSeriesPoint) (threshold : ℚ) :
    List TimeSeriesPoint :=
  if points.length < 3 then []
  else
    let values := (points.map (·.y)).insertionSort (· ≤ ·)
    let median := values.getD (values.length / 2) 0
    let deviations := values.map (fun v => |v - median|)
    let mad := (deviations.insertionSort (· ≤ ·)).getD (deviations.length / 2) 0
    if mad = 0 then []
    else points.filter (fun p => decide (|p.y - median| / mad > threshold))

/-- detectOutliers dispatcher (lod.ts lines 172-190). -/
def detectOutliers (points : List TimeSeriesPoint) (config : LODConfig) :
    List TimeSeriesPoint :=
  if ¬ config.preserveOutliers ∨ points.length < 3 then []
  else
    match config.outlierMethod with
    | .zscore => detectOutliersZScore points config.outlierThreshold
    | .iqr => detectOutliersIQR points
    | .mad => detectOutliersMAD points config.outlierThreshold

/-- `bucketPoints[0]` fallback of createBucketSummary: in JS it is
`undefined` only for an empty bucket, which applyLOD never produces. -/
def fallbackPoint : TimeSeriesPoint := ⟨0, 0, none⟩

/-- createBucketSummary (lod.ts lines 199-269).  Note line 266: the
returned bucket always carries `outliers := []`, whatever `outliers`
were passed in. -/
def createBucketSummary (bucketPts : List TimeSeriesPoint) (bucketIndex : ℤ)
    (bucketSize startTime : ℚ) (outliers : List TimeSeriesPoint)
    (config : LODConfig) : LODBucket :=
  let values := bucketPts.map (·.y)
  let minv := minQ values
  let maxv := maxQ values
  let avg := sumQ values / values.length
  let bucketStart := startTime + bucketIndex * bucketSize
  let bucketEnd := bucketStart + bucketSize
  let midTime := bucketStart + bucketSize / 2
  let representative : TimeSeriesPoint :=
    if config.preserveMinMax then
      match outliers.filter (fun o => decide (bucketStart ≤ o.x ∧ o.x < bucketEnd)) with
      | o :: os =>
        os.foldl (fun extreme current =>
          if |current.y - avg| > |extreme.y - avg| then current else extreme) o
      | [] =>
        if 0 < maxv - minv ∧ (avg - minv) / (maxv - minv) > 7/10 then
          ((bucketPts.find? (fun p => decide (p.y = maxv))).getD (bucketPts.headD fallbackPoint))
        else if 0 < maxv - minv ∧ (maxv - avg) / (maxv - minv) > 7/10 then
          ((bucketPts.find? (fun p => decide (p.y = minv))).getD (bucketPts.headD fallbackPoint))
        else
          ⟨midTime, avg, some ("bucket-" ++ toString bucketIndex ++ "-avg")⟩
    else
      ⟨midTime, avg, some ("bucket-" ++ toString bucketIndex ++ "-avg")⟩
  { startTime := bucketStart
    endTime := bucketEnd
    min := minv
    max := maxv
    avg := avg
    count := bucketPts.length
    outliers := []
    representative := representative }

/-- `Math.floor(points.length * (maxOutlierPercentage / 100))` used as the
`slice` bound (lod.ts line 327); for a nonnegative percentage the value is
nonnegative, so `Int.toNat` is exact. -/
def maxOutliersFor (n : ℕ) (pct : ℚ) : ℕ :=
  (⌊(n : ℚ) * (pct / 100)⌋).toNat

/-- applyLOD (lod.ts lines 279-375).  `config` stands for the merged
`{ ...DEFAULT_LOD_CONFIG, ...config }`; as in the source, `targetPoints`
then overrides the config field. -/
def applyLOD (points : List TimeSeriesPoint) (targetPoints : ℕ)
    (timeRange : Option (ℚ × ℚ)) (config : LODConfig) : LODResult :=
  let fullConfig := { config with targetPoints := targetPoints }
  if points.length ≤ targetPoints then
    { buckets := points.map (fun p =>
        { startTime := p.x
          endTime := p.x
          min := p.y
          max := p.y
          avg := p.y
          count := 1
          outliers := []
          representative := p })
      totalPoints := points.length
      sampledPoints := points.length
      compressionRatio := 1
      level := 4
      outlierCount := 0 }
  else
    let range : ℚ × ℚ :=
      match timeRange with
      | some (a, b) => (a, b)
      | none => (minQ (points.map (·.x)), maxQ (points.map (·.x)))
    let bucketSize := calculateBucketSize range targetPoints
    let allOutliers := detectOutliers points fullConfig
    let cappedOutliers :=
      allOutliers.take (maxOutliersFor points.length fullConfig.maxOutlierPercentage)
    let bucketSummaries :=
      (sortedBucketIndices points bucketSize range.1).map (fun i =>
        createBucketSummary (pointsInBucket points bucketSize range.1 i)
          i bucketSize range.1 cappedOutliers fullConfig)
    let sampledPoints := bucketSummaries.length
    let compressionRatio := (points.length : ℚ) / sampledPoints
    let level : ℕ :=
      if compressionRatio ≥ 100 then 0
      else if compressionRatio ≥ 50 then 1
      else if compressionRatio ≥ 10 then 2
      else if compressionRatio ≥ 2 then 3
      else 4
    { buckets := bucketSummaries
      totalPoints := points.length
      sampledPoints := sampledPoints
      compressionRatio := compressionRatio
      level := level
      outlierCount := cappedOutliers.length }

-- ============================================================================
-- THRESHOLDS MODULE (src/lib/viz/hybrid/thresholds.ts)
-- ============================================================================

/-- RendererTier enum (types.ts). -/
inductive RendererTier
  | svg
  | canvas
  | webgl
deriving DecidableEq

/-- Capability rank: SVG < Canvas < WebGL. -/
def RendererTier.rank : RendererTier → ℕ
  | .svg => 0
  | .canvas => 1
  | .webgl => 2

/-- ThresholdConfig (types.ts lines 74-91). -/
structure ThresholdConfig where
  svgToCanvas : ℚ
  canvasToWebGL : ℚ
  pointsPerPixelSVG : ℚ
  pointsPerPixelCanvas : ℚ
  pointsPerPixelWebGL : ℚ
  forceRenderer : Option RendererTier
  autoDetect : Bool
deriving DecidableEq

/-- `Partial<ThresholdConfig>`: every field may be absent. -/
structure PartialThresholdConfig where
  svgToCanvas : Option ℚ := none
  canvasToWebGL : Option ℚ := none
  pointsPerPixelSVG : Option ℚ := none
  pointsPerPixelCanvas : Option ℚ := none
  pointsPerPixelWebGL : Option ℚ := none
  forceRenderer : Option RendererTier := none
  autoDetect : Option Bool := none
deriving DecidableEq

/-- DEFAULT_THRESHOLDS (thresholds.ts lines 274-289). -/
def DEFAULT_THRESHOLDS : ThresholdConfig :=
  { svgToCanvas := 5000
    canvasToWebGL := 50000
    pointsPerPixelSVG := 1/2
    pointsPerPixelCanvas := 5
    pointsPerPixelWebGL := 50
    forceRenderer := none
    autoDetect := true }

/-- validateThresholds (thresholds.ts lines 444-465).  `a ?? b` is
`Option.getD`; note that `canvasToWebGL` is clamped against the RAW
`config.svgToCanvas ?? base.svgToCanvas`, not against the already
clamped `max 100 ...` value. -/
def validateThresholds (config : PartialThresholdConfig) : ThresholdConfig :=
  let base := DEFAULT_THRESHOLDS
  { svgToCanvas := max 100 (config.svgToCanvas.getD base.svgToCanvas)
    canvasToWebGL := max (config.svgToCanvas.getD base.svgToCanvas)
      (config.canvasToWebGL.getD base.canvasToWebGL)
    pointsPerPixelSVG := max (1/10) (config.pointsPerPixelSVG.getD base.pointsPerPixelSVG)
    pointsPerPixelCanvas := max (1/10) (config.pointsPerPixelCanvas.getD base.pointsPerPixelCanvas)
    pointsPerPixelWebGL := max (1/10) (config.pointsPerPixelWebGL.getD base.pointsPerPixelWebGL)
    forceRenderer := config.forceRenderer.or base.forceRenderer
    autoDetect := config.autoDetect.getD base.autoDetect }

-- ============================================================================
-- DETECTION MODULE (src/lib/viz/hybrid/detection.ts)
-- ============================================================================

/-- The subset of DeviceCapabilities that isTierAvailable consults.  In the
source these flags are read from the browser (detectDeviceCapabilities);
the embedding passes them explicitly. -/
structure DeviceCapabilities where
  webglSupported : Bool
  canvasSupported : Bool
  svgSupported : Bool
deriving DecidableEq

/-- isTierAvailable (detection.ts lines 216-229). -/
def isTierAvailable (caps : DeviceCapabilities) : RendererTier → Bool
  | .svg => caps.svgSupported
  | .canvas => caps.canvasSupported
  | .webgl => caps.webglSupported

/-- PerformanceSnapshot (detection.ts lines 273-280). -/
structure PerformanceSnapshot where
  timestamp : ℚ
  frameTime : ℚ
  fps : ℚ
  droppedFrames : ℕ
  tier : RendererTier
deriving DecidableEq

/-- countPerformanceViolations (detection.ts lines 319-329).  The source
reads the module-level `performanceHistory` and `performance.now()`; both
are explicit parameters here. -/
def countPerformanceViolations (history : List PerformanceSnapshot)
    (now budgetMs windowMs : ℚ) : ℕ :=
  (history.filter (fun p => decide (now - windowMs ≤ p.timestamp ∧ p.frameTime > budgetMs))).length

/-- shouldDegradeTier (detection.ts lines 334-356).  The tier walk over
`[WEBGL, CANVAS, SVG]` via indexOf is unrolled per constructor: the
candidate is the next lower tier, returned only when available; SVG
(the last entry) never degrades. -/
def shouldDegradeTier (history : List PerformanceSnapshot) (now : ℚ)
    (caps : DeviceCapabilities) (currentTier : RendererTier)
    (budgetMs : ℚ) (violationThreshold : ℕ) (windowMs : ℚ) : Option RendererTier :=
  let violations := countPerformanceViolations history now budgetMs windowMs
  if violations ≥ violationThreshold then
    match currentTier with
    | .webgl => if isTierAvailable caps .canvas then some .canvas else none
    | .canvas => if isTierAvailable caps .svg then some .svg else none
    | .svg => none
  else none

-- ============================================================================
-- HYBRID ENGINE (src/lib/viz/hybrid/engine.ts, second file of renderer-svg.ts)
-- ============================================================================

/-- PerformanceBudgetConfig (types.ts lines 92-112). -/
structure PerformanceBudgetConfig where
  targetFrameTime : ℚ
  maxFrameTime : ℚ
  targetFPS : ℚ
  minAcceptableFPS : ℚ
  maxHoverLatency : ℚ
  maxBrushLatency : ℚ
  maxZoomLatency : ℚ
  maxGPUMemoryMB : ℚ
  maxJSMemoryMB : ℚ
  autoDegrade : Bool
  degradeFrameThreshold : ℕ
deriving DecidableEq

/-- DEFAULT_CONFIG.performanceBudgets (engine.ts lines 419-431). -/
def DEFAULT_PERFORMANCE_BUDGETS : PerformanceBudgetConfig :=
  { targetFrameTime := 1667/100
    maxFrameTime := 3333/100
    targetFPS := 60
    minAcceptableFPS := 30
    maxHoverLatency := 16
    maxBrushLatency := 50
    maxZoomLatency := 100
    maxGPUMemoryMB := 512
    maxJSMemoryMB := 256
    autoDegrade := true
    degradeFrameThreshold := 10 }

/-- The auto-degrade branch of HybridEngine.evaluateTierChange (engine.ts
lines 627-638): when autoDegrade is on it calls shouldDegradeTier with the
current tier, `performanceBudgets.targetFrameTime` (NOT maxFrameTime) and
`degradeFrameThreshold`; windowMs keeps its default 1000. -/
def HybridEngine.evaluateDegrade (cfg : PerformanceBudgetConfig)
    (caps : DeviceCapabilities) (history : List PerformanceSnapshot)
    (now : ℚ) (currentTier : RendererTier) : Option RendererTier :=
  if cfg.autoDegrade then
    shouldDegradeTier history now caps currentTier cfg.targetFrameTime
      cfg.degradeFrameThreshold 1000
  else none

/-- FrameMetrics (types.ts lines 206-213). -/
structure FrameMetrics where
  timestamp : ℚ
  frameTime : ℚ
  renderTime : ℚ
  pointCount : ℕ
  tier : RendererTier
  dropped : Bool
deriving DecidableEq

/-- `private readonly maxFrameMetrics = 60` (engine.ts line 506). -/
def maxFrameMetrics : ℕ := 60

/-- The ring update of HybridEngine.recordFrameMetrics (engine.ts lines
767-770): push the metric, then shift the oldest entry off while the
length exceeds the capacity (it exceeds it by at most one). -/
def pushFrameMetric (metrics : List FrameMetrics) (m : FrameMetrics) : List FrameMetrics :=
  let pushed := metrics ++ [m]
  if maxFrameMetrics < pushed.length then pushed.tail else pushed

/-- The metric built by HybridEngine.recordFrameMetrics (engine.ts lines
750-766): `dropped = frameTime > performanceBudgets.maxFrameTime`. -/
def HybridEngine.mkFrameMetric (cfg : PerformanceBudgetConfig) (now frameTime : ℚ)
    (totalPoints : ℕ) (tier : RendererTier) : FrameMetrics :=
  { timestamp := now
    frameTime := frameTime
    renderTime := frameTime
    pointCount := totalPoints
    tier := tier
    dropped := frameTime > cfg.maxFrameTime }

-- ============================================================================
-- RENDERER SURFACES (renderer-svg.ts / renderer-webgl.ts / canvas renderer)
-- ============================================================================

/-- The closest-point accumulation step shared by every hitTest loop:
`if (distance < radius && distance < minDistance) { minDistance = distance;
closest = cand; }`.  `minDistance` starts at Infinity, encoded by the
`none` state; distances are compared through their squares. -/
def ltMinDist (dsq : ℚ) (closest : Option HitTestResult) : Bool :=
  match closest with
  | none => true
  | some c => decide (dsq < c.distSq)

/-- One candidate considered by a hitTest loop. -/
def hitTestStep (radius : ℚ) (cand : HitTestResult) (closest : Option HitTestResult) :
    Option HitTestResult :=
  if sqrtLtQ cand.distSq radius && ltMinDist cand.distSq closest then some cand
  else closest

/-- SVGRenderer.hitTest (renderer-svg.ts lines 261-301): linear scan over
every visible series' points; `dx*dx + dy*dy` is written as squares. -/
def SVGRenderer.hitTest (currentData : List SeriesData) (ctx : RenderContext)
    (x y radius : ℚ) : Option HitTestResult :=
  if currentData.length = 0 then none
  else
    let dataX := x - ctx.margin.left
    let dataY := y - ctx.margin.top
    currentData.foldl (fun closest series =>
      if seriesHidden series then closest
      else series.data.foldl (fun closest point =>
        let px := ctx.xScale point.x
        let py := ctx.yScale point.y
        let dsq := (px - dataX) ^ 2 + (py - dataY) ^ 2
        hitTestStep radius
          { point := point, series := some series.id, distSq := dsq, x := px, y := py }
          closest) closest) none

/-- WebGLRenderer.hitTest (renderer-webgl.ts lines 356-396): same linear
scan but in flipped world coordinates (`height || 0` equals `height` for
every rational height, since `0 || 0` is also `0`). -/
def WebGLRenderer.hitTest (currentData : List SeriesData) (ctx : RenderContext)
    (x y radius : ℚ) : Option HitTestResult :=
  if currentData.length = 0 then none
  else
    let worldX := x - ctx.margin.left
    let worldY := ctx.height - (y - ctx.margin.top)
    currentData.foldl (fun closest series =>
      if seriesHidden series then closest
      else series.data.foldl (fun closest point =>
        let px := ctx.xScale point.x
        let py := ctx.height - ctx.yScale point.y
        let dsq := (px - worldX) ^ 2 + (py - worldY) ^ 2
        hitTestStep radius
          { point := point, series := some series.id, distSq := dsq, x := px, y := py }
          closest) closest) none

/-- `private hitTestRadius = 10` of CanvasRenderer. -/
def CanvasRenderer.hitTestRadius : ℚ := 10

/-- One cell of the spatial index built by CanvasRenderer.buildSpatialIndex
(renderer-webgl.ts lines 760-787): the Map entry for `key` holds, in series
then point order, every visible point whose pixel cell is `key`;
`cellSize = hitTestRadius * 2`. -/
def CanvasRenderer.spatialCell (data : List SeriesData) (xScale yScale : ℚ → ℚ)
    (key : ℤ × ℤ) : List DataPoint :=
  let cellSize := CanvasRenderer.hitTestRadius * 2
  (data.filter (fun s => !seriesHidden s)).flatMap (fun s =>
    s.data.filter (fun p =>
      decide (⌊xScale p.x / cellSize⌋ = key.1 ∧ ⌊yScale p.y / cellSize⌋ = key.2)))

/-- CanvasRenderer.hitTest (renderer-webgl.ts lines 861-915): scans the
3x3 cell neighbourhood of the query cell in the spatial index; the series
of a hit is recovered by searching currentData for a point with equal
coordinates. -/
def CanvasRenderer.hitTest (currentData : List SeriesData) (ctx : RenderContext)
    (x y radius : ℚ) : Option HitTestResult :=
  if currentData.length = 0 then none
  else
    let dataX := x - ctx.margin.left
    let dataY := y - ctx.margin.top
    let cellSize := CanvasRenderer.hitTestRadius * 2
    let cellX := ⌊dataX / cellSize⌋
    let cellY := ⌊dataY / cellSize⌋
    ([-1, 0, 1] : List ℤ).foldl (fun closest dx =>
      ([-1, 0, 1] : List ℤ).foldl (fun closest dy =>
        (CanvasRenderer.spatialCell currentData ctx.xScale ctx.yScale
            (cellX + dx, cellY + dy)).foldl (fun closest point =>
          let px := ctx.xScale point.x
          let py := ctx.yScale point.y
          let dsq := (px - dataX) ^ 2 + (py - dataY) ^ 2
          hitTestStep radius
            { point := point
              series := (currentData.find? (fun s =>
                s.data.any (fun p => p.x == point.x && p.y == point.y))).map (·.id)
              distSq := dsq
              x := px
              y := py }
            closest) closest) closest) none

/-- SVGRenderer.getPointsInRegion (renderer-svg.ts lines 303-328). -/
def SVGRenderer.getPointsInRegion (currentData : List SeriesData) (ctx : RenderContext)
    (x1 y1 x2 y2 : ℚ) : List DataPoint :=
  let minX := min x1 x2 - ctx.margin.left
  let maxX := max x1 x2 - ctx.margin.left
  let minY := min y1 y2 - ctx.margin.top
  let maxY := max y1 y2 - ctx.margin.top
  currentData.foldl (fun points series =>
    if seriesHidden series then points
    else points ++ series.data.filter (fun p =>
      let px := ctx.xScale p.x
      let py := ctx.yScale p.y
      decide (minX ≤ px ∧ px ≤ maxX ∧ minY ≤ py ∧ py ≤ maxY))) []

-- ============================================================================
-- ACCESSIBILITY SUMMARISER (accessibility-fallbacks.ts)
-- ============================================================================

/-- One entry of DataSummary.anomalies. -/
structure AnomalyEntry where
  series : String
  point : DataPoint
  description : String
deriving DecidableEq

/-- The anomaly test of generateDataSummary (accessibility-fallbacks.ts
lines 216-229): `Math.abs(point.y - seriesAvg) > 3 * std` with
`std = Math.sqrt(variance)`; both sides are nonnegative, so squaring
gives the equivalent rational comparison `(y - avg)² > 9 · variance`. -/
def isAnomalyIn (seriesData : List DataPoint) (p : DataPoint) : Bool :=
  let values := seriesData.map (·.y)
  let seriesAvg := sumQ values / values.length
  let variance := sumQ (values.map (fun v => (v - seriesAvg) ^ 2)) / values.length
  decide ((p.y - seriesAvg) ^ 2 > 9 * variance)

/-- The `anomalies` field computed by generateDataSummary
(accessibility-fallbacks.ts lines 174-263): per series (empty series are
skipped), every point beyond three standard deviations is pushed in point
order; finally `anomalies.slice(0, 10)` keeps the FIRST ten entries in
encounter order (line 260).  The other summary fields are not needed by
any claim. -/
def generateDataSummaryAnomalies (data : List SeriesData) : List AnomalyEntry :=
  if data.length = 0 then []
  else
    (data.foldl (fun acc series =>
      if series.data.length = 0 then acc
      else acc ++ (series.data.filter (isAnomalyIn series.data)).map (fun p =>
        { series := series.name
          point := p
          description := "Anomalous value " ++ toString p.y ++ " detected in " ++ series.name })) []).take 10

-- ============================================================================
-- SPECIFICATION-SIDE DEFINITIONS AND PROOF INFRASTRUCTURE
-- ============================================================================

/-- Squared pixel distance between a data point and the query position of a
hitTest call, in the inner-area coordinates (`x - margin.left`,
`y - margin.top`) shared by all three renderers. -/
def queryDistSq (ctx : RenderContext) (x y : ℚ) (p : DataPoint) : ℚ :=
  (ctx.xScale p.x - (x - ctx.margin.left)) ^ 2 +
    (ctx.yScale p.y - (y - ctx.margin.top)) ^ 2

/-- `p` is the first point of `l` (in list order) whose value attains `v`. -/
def firstPointAchieving (l : List TimeSeriesPoint) (v : ℚ) (p : TimeSeriesPoint) : Prop :=
  ∃ i : ℕ, l[i]? = some p ∧ p.y = v ∧ ∀ j < i, ∀ q, l[j]? = some q → q.y ≠ v

/-- A hitTest loop body over an arbitrary candidate list, abstracted over
how a candidate is turned into a HitTestResult; each renderer's hitTest is
equal to a `scanClosest` over its flattened candidate list. -/
def scanClosest {α : Type} (radius : ℚ) (mk : α → HitTestResult) (l : List α)
    (init : Option HitTestResult) : Option HitTestResult :=
  l.foldl (fun closest a => hitTestStep radius (mk a) closest) init

/-- Loop invariant of a closest-point scan with intended minimum `dstar`
attained by the point value `pstar`. -/
def scanInv (dstar : ℚ) (pstar : DataPoint) : Option HitTestResult → Prop
  | none => True
  | some h => dstar ≤ h.distSq ∧ (h.distSq = dstar → h.point = pstar)

/-- The scan state already holds the intended answer. -/
def scanDone (dstar : ℚ) (pstar : DataPoint) (o : Option HitTestResult) : Prop :=
  ∃ h, o = some h ∧ h.distSq = dstar ∧ h.point = pstar

/-- Candidate construction of SVGRenderer.hitTest for one
(series id, point) pair. -/
def svgMk (ctx : RenderContext) (x y : ℚ) (a : String × DataPoint) : HitTestResult :=
  let px := ctx.xScale a.2.x
  let py := ctx.yScale a.2.y
  { point := a.2
    series := some a.1
    distSq := (px - (x - ctx.margin.left)) ^ 2 + (py - (y - ctx.margin.top)) ^ 2
    x := px
    y := py }

/-- Candidate construction of WebGLRenderer.hitTest for one
(series id, point) pair. -/
def webglMk (ctx : RenderContext) (x y : ℚ) (a : String × DataPoint) : HitTestResult :=
  let px := ctx.xScale a.2.x
  let py := ctx.height - ctx.yScale a.2.y
  { point := a.2
    series := some a.1
    distSq := (px - (x - ctx.margin.left)) ^ 2 +
      (py - (ctx.height - (y - ctx.margin.top))) ^ 2
    x := px
    y := py }

/-- Candidate construction of CanvasRenderer.hitTest for one indexed point. -/
def canvasMk (currentData : List SeriesData) (ctx : RenderContext) (x y : ℚ)
    (point : DataPoint) : HitTestResult :=
  let px := ctx.xScale point.x
  let py := ctx.yScale point.y
  { point := point
    series := (currentData.find? (fun s =>
      s.data.any (fun p => p.x == point.x && p.y == point.y))).map (·.id)
    distSq := (px - (x - ctx.margin.left)) ^ 2 + (py - (y - ctx.margin.top)) ^ 2
    x := px
    y := py }

/-- The (series id, point) pairs a linear-scan hitTest iterates over. -/
def visibleCandidates (data : List SeriesData) : List (String × DataPoint) :=
  (data.filter (fun s => !seriesHidden s)).flatMap (fun s =>
    s.data.map (fun p => (s.id, p)))

/-- The candidate points CanvasRenderer.hitTest iterates over: the spatial
cells of the 3x3 neighbourhood of the query cell, in loop order. -/
def canvasNeighborhood (data : List SeriesData) (ctx : RenderContext) (x y : ℚ) :
    List DataPoint :=
  let cellSize := CanvasRenderer.hitTestRadius * 2
  let cellX := ⌊(x - ctx.margin.left) / cellSize⌋
  let cellY := ⌊(y - ctx.margin.top) / cellSize⌋
  ([-1, 0, 1] : List ℤ).flatMap (fun dx =>
    ([-1, 0, 1] : List ℤ).flatMap (fun dy =>
      CanvasRenderer.spatialCell data ctx.xScale ctx.yScale (cellX + dx, cellY + dy)))

/-- Normalising an absent `visible` flag to an explicit `true`: the claim
that undefined visibility is treated as visible says exactly that this
normalisation does not change any observable operation. -/
def markVisible (s : SeriesData) : SeriesData :=
  { s with visible := some (!(s.visible == some false)) }

-- ============================================================================
-- CONCRETE INPUTS FOR COUNTEREXAMPLES AND WITNESSES
-- ============================================================================

/-- Eleven points: ten at y = 0, one spike at y = 100 (a z-score outlier). -/
def c1Points : List TimeSeriesPoint :=
  (List.range 10).map (fun (i : ℕ) => ⟨(i : ℚ), 0, none⟩) ++ [⟨10, 100, none⟩]

/-- All renderer tiers supported by the device. -/
def allCaps : DeviceCapabilities := ⟨true, true, true⟩

/-- Ten consecutive recorded frames, each of 50 ms (> maxFrameTime), spaced
200 ms apart: they span 1800 ms, so only six fall in the trailing 1000 ms
counting window. -/
def c3History : List PerformanceSnapshot :=
  (List.range 10).map (fun (i : ℕ) =>
    { timestamp := 200 * (i : ℚ), frameTime := 50, fps := 20, droppedFrames := i, tier := .webgl })

/-- Ten frames of 20 ms each (all BELOW maxFrameTime = 33.33) packed inside
one second. -/
def c3HistoryB : List PerformanceSnapshot :=
  (List.range 10).map (fun (i : ℕ) =>
    { timestamp := 1000 + 10 * (i : ℚ), frameTime := 20, fps := 50, droppedFrames := 0, tier := .webgl })

/-- A bucket whose maximum 10 is attained by three points; the earliest
(by x) maximum is at x = 1, but the first in list order is at x = 7. -/
def c7Points : List TimeSeriesPoint :=
  [⟨7, 10, none⟩, ⟨1, 10, none⟩, ⟨3, 10, none⟩, ⟨5, 0, none⟩]

/-- Eleven anomalous values; the most severe one (-105) comes last. -/
def c8Values : List ℚ :=
  [100, 101, 102, 103, 104, -101, -102, -103, -104, 105, -105]

/-- 109 zero points followed by the eleven anomalies of `c8Values`:
all eleven exceed three standard deviations, and the cap keeps only the
first ten encountered, dropping the most severe. -/
def c8Series : SeriesData :=
  { id := "s1"
    name := "s1"
    color := "c"
    data := List.replicate 109 (⟨0, 0, none⟩ : DataPoint) ++
      c8Values.map (fun v => ⟨0, v, none⟩)
    visible := none }

/-- Identity scales, no margins. -/
def identityCtx : RenderContext :=
  { width := 400
    height := 300
    margin := ⟨0, 0, 0, 0⟩
    xScale := fun t => t
    yScale := fun v => v
    pixelRatio := 1 }

/-- One visible series with a single point at pixel (50, 0): within a
radius of 100 from the origin, but two index cells away from it. -/
def c2Series : SeriesData :=
  { id := "s", name := "s", color := "c", data := [⟨50, 0, none⟩], visible := none }

/-- Two points at pixels (1,0) and (30,0); with radius 10 only the first is
in range, and it is the unique nearest point. -/
def c2WitnessSeries : SeriesData :=
  { id := "w", name := "w", color := "c", data := [⟨1, 0, none⟩, ⟨30, 0, none⟩], visible := some true }

/-- An arbitrary frame metric, used to fill the ring. -/
def c9Metric : FrameMetrics :=
  { timestamp := 0, frameTime := 0, renderTime := 0, pointCount := 0, tier := .svg, dropped := false }

/-- A single data point for the LOD fast-path witness. -/
def c5Point : TimeSeriesPoint := ⟨0, 1, none⟩

/-- Average y of a bucket, as computed by createBucketSummary. -/
def bucketAvgOf (bucketPts : List TimeSeriesPoint) : ℚ :=
  sumQ (bucketPts.map (·.y)) / (bucketPts.map (·.y)).length

/-- Envelope position `r = (avg - min) / (max - min)` of a bucket. -/
def envelopeR (bucketPts : List TimeSeriesPoint) : ℚ :=
  (bucketAvgOf bucketPts - minQ (bucketPts.map (·.y))) /
    (maxQ (bucketPts.map (·.y)) - minQ (bucketPts.map (·.y)))

-- ============================================================================
-- GENERAL HELPER LEMMAS
-- ============================================================================

theorem foldl_filter_if {α β : Type} (p : α → Bool) (f : β → α → β) (l : List α) :
    ∀ init : β, (l.filter p).foldl f init =
      l.foldl (fun acc a => if p a then f acc a else acc) init := by
  induction l with
  | nil => intro init; rfl
  | cons a l ih =>
    intro init
    by_cases hp : p a = true
    · simp [List.filter_cons, hp, ih]
    · simp [List.filter_cons, hp, ih]

theorem foldl_flatMap {α β γ : Type} (g : γ → List α) (f : β → α → β) (l : List γ) :
    ∀ init : β, (l.flatMap g).foldl f init =
      l.foldl (fun acc c => (g c).foldl f acc) init := by
  induction l with
  | nil => intro init; rfl
  | cons c l ih =>
    intro init
    simp [List.flatMap_cons, List.foldl_append, ih]

theorem foldl_append_flatMap {α β : Type} (f : α → List β) (l : List α) :
    ∀ acc : List β, l.foldl (fun a s => a ++ f s) acc = acc ++ l.flatMap f := by
  induction l with
  | nil => intro acc; simp
  | cons s l ih => intro acc; simp [ih]

theorem foldl_max_mem (vs : List ℚ) : ∀ v : ℚ, vs.foldl max v ∈ v :: vs := by
  induction vs with
  | nil => intro v; simp
  | cons w vs ih =>
    intro v
    rw [List.foldl_cons]
    rcases List.mem_cons.mp (ih (max v w)) with h3 | h3
    · rw [h3]
      rcases max_choice v w with h4 | h4 <;> rw [h4]
      · exact List.mem_cons_self _ _
      · exact List.mem_cons_of_mem _ (List.mem_cons_self _ _)
    · exact List.mem_cons_of_mem _ (List.mem_cons_of_mem _ h3)

theorem foldl_min_mem (vs : List ℚ) : ∀ v : ℚ, vs.foldl min v ∈ v :: vs := by
  induction vs with
  | nil => intro v; simp
  | cons w vs ih =>
    intro v
    rw [List.foldl_cons]
    rcases List.mem_cons.mp (ih (min v w)) with h3 | h3
    · rw [h3]
      rcases min_choice v w with h4 | h4 <;> rw [h4]
      · exact List.mem_cons_self _ _
      · exact List.mem_cons_of_mem _ (List.mem_cons_self _ _)
    · exact List.mem_cons_of_mem _ (List.mem_cons_of_mem _ h3)

theorem maxQ_mem (l : List ℚ) (h : l ≠ []) : maxQ l ∈ l := by
  match l with
  | v :: vs => exact foldl_max_mem vs v

theorem minQ_mem (l : List ℚ) (h : l ≠ []) : minQ l ∈ l := by
  match l with
  | v :: vs => exact foldl_min_mem vs v

theorem find?_firstPointAchieving (l : List TimeSeriesPoint) (v : ℚ) (p : TimeSeriesPoint)
    (h : l.find? (fun q => decide (q.y = v)) = some p) : firstPointAchieving l v p := by
  induction l with
  | nil => simp [List.find?] at h
  | cons a l ih =>
    by_cases ha : a.y = v
    · rw [List.find?_cons_of_pos _ (by simpa using ha)] at h
      obtain rfl : a = p := by simpa using h
      exact ⟨0, by simp, ha, fun j hj => absurd hj (Nat.not_lt_zero j)⟩
    · rw [List.find?_cons_of_neg _ (by simpa using ha)] at h
      obtain ⟨i, hi, hv, hj⟩ := ih h
      refine ⟨i + 1, by simpa using hi, hv, ?_⟩
      intro j hjlt q hq
      match j with
      | 0 =>
        obtain rfl : a = q := by simpa using hq
        exact ha
      | j + 1 =>
        exact hj j (by omega) q (by simpa using hq)

-- ============================================================================
-- CLAIM C4
-- ============================================================================

unseal Rat.add Rat.mul Rat.sub Rat.inv in
/-- C4: the claim says validateThresholds always returns a configuration
with `svgToCanvas ≥ 100` and `canvasToWebGL ≥ svgToCanvas`.  The code
clamps `canvasToWebGL` against the raw, unclamped `svgToCanvas` input, so
for the partial configuration `{svgToCanvas: 50, canvasToWebGL: 60}` the
result is `svgToCanvas = 100`, `canvasToWebGL = 60`, violating the second
inequality.  The first inequality does hold; the second is the bug. -/
theorem C4_validateThresholds_violation :
    (validateThresholds { svgToCanvas := some 50, canvasToWebGL := some 60 }).svgToCanvas = 100 ∧
    (validateThresholds { svgToCanvas := some 50, canvasToWebGL := some 60 }).canvasToWebGL = 60 ∧
    (validateThresholds { svgToCanvas := some 50, canvasToWebGL := some 60 }).canvasToWebGL <
      (validateThresholds { svgToCanvas := some 50, canvasToWebGL := some 60 }).svgToCanvas := by
  decide

-- ============================================================================
-- CLAIM C6
-- ============================================================================

unseal Rat.add Rat.mul Rat.sub Rat.inv in
/-- C6 counterexample: the claim says `target = 0` (with any input) yields
an empty LODResult.  For the one-point list and target 0 the fast path is
skipped (1 ≤ 0 fails) and applyLOD produces one non-empty bucket. -/
theorem C6_counterexample :
    (applyLOD [⟨0, 0, none⟩] 0 none DEFAULT_LOD_CONFIG).buckets ≠ [] ∧
    (applyLOD [⟨0, 0, none⟩] 0 none DEFAULT_LOD_CONFIG).buckets.length = 1 := by
  decide

/-- C6 amended: whenever the input point list is empty, applyLOD returns
the empty LODResult with level = Full (4); applyLOD is a total function,
so no error is raised on any input - but a zero target with non-empty
input yields buckets (see the counterexample), not an empty result. -/
theorem C6_amended_empty_input (targetPoints : ℕ) (timeRange : Option (ℚ × ℚ))
    (config : LODConfig) :
    applyLOD [] targetPoints timeRange config =
      { buckets := []
        totalPoints := 0
        sampledPoints := 0
        compressionRatio := 1
        level := 4
        outlierCount := 0 } := by
  simp [applyLOD]

-- ============================================================================
-- CLAIM C5
-- ============================================================================

/-- C5: for every point list and target with `len(points) ≤ target`,
applyLOD takes the fast path: one bucket per input point, each
representative being the point itself, level = Full (4) and
compressionRatio = 1. -/
theorem C5_fast_path (points : List TimeSeriesPoint) (targetPoints : ℕ)
    (timeRange : Option (ℚ × ℚ)) (config : LODConfig)
    (h : points.length ≤ targetPoints) :
    (applyLOD points targetPoints timeRange config).buckets.map (·.representative) = points ∧
    (applyLOD points targetPoints timeRange config).buckets.length = points.length ∧
    (applyLOD points targetPoints timeRange config).level = 4 ∧
    (applyLOD points targetPoints timeRange config).compressionRatio = 1 := by
  simp only [applyLOD, if_pos h, List.map_map, List.length_map]
  refine ⟨List.map_id points, trivial, trivial, trivial⟩

/-- Witness for C5 at a concrete input. -/
theorem C5_fast_path_witness :
    ([c5Point].length ≤ 3) ∧
    ((applyLOD [c5Point] 3 none DEFAULT_LOD_CONFIG).buckets.map (·.representative) = [c5Point] ∧
     (applyLOD [c5Point] 3 none DEFAULT_LOD_CONFIG).buckets.length = [c5Point].length ∧
     (applyLOD [c5Point] 3 none DEFAULT_LOD_CONFIG).level = 4 ∧
     (applyLOD [c5Point] 3 none DEFAULT_LOD_CONFIG).compressionRatio = 1) :=
  ⟨by decide, C5_fast_path [c5Point] 3 none DEFAULT_LOD_CONFIG (by decide)⟩

-- ============================================================================
-- CLAIM C9
-- ============================================================================

theorem pushFrameMetric_eq (ms : List FrameMetrics) (m : FrameMetrics) (h : ms.length ≤ 60) :
    pushFrameMetric ms m = (ms ++ [m]).drop (ms.length + 1 - 60) := by
  simp only [pushFrameMetric, maxFrameMetrics]
  by_cases h1 : 60 < (ms ++ [m]).length
  · rw [if_pos h1]
    simp only [List.length_append, List.length_cons, List.length_nil] at h1
    have h2 : ms.length + 1 - 60 = 1 := by omega
    rw [h2, List.drop_one]
  · rw [if_neg h1]
    simp only [List.length_append, List.length_cons, List.length_nil] at h1
    have h2 : ms.length + 1 - 60 = 0 := by omega
    rw [h2, List.drop_zero]

theorem foldl_pushFrameMetric (L : List FrameMetrics) :
    ∀ init : List FrameMetrics, init.length ≤ 60 →
      L.foldl pushFrameMetric init = (init ++ L).drop (init.length + L.length - 60) := by
  induction L with
  | nil =>
    intro init h
    simp only [List.foldl_nil, List.append_nil, List.length_nil]
    have h2 : init.length + 0 - 60 = 0 := by omega
    rw [h2, List.drop_zero]
  | cons m L ih =>
    intro init h
    rw [List.foldl_cons, pushFrameMetric_eq init m h]
    have hlen2 : ((init ++ [m]).drop (init.length + 1 - 60)).length ≤ 60 := by
      simp only [List.length_drop, List.length_append, List.length_cons, List.length_nil]
      omega
    rw [ih _ hlen2]
    have hd : init.length + 1 - 60 ≤ (init ++ [m]).length := by
      simp only [List.length_append, List.length_cons, List.length_nil]
      omega
    rw [← List.drop_append_of_le_length hd, List.drop_drop]
    have hlist : (init ++ [m]) ++ L = init ++ m :: L := by
      simp [List.append_assoc]
    rw [hlist]
    congr 1
    simp only [List.length_drop, List.length_append, List.length_cons, List.length_nil]
    omega

/-- C9: after more than 60 recordings, the engine's frame-metric ring
holds exactly the 60 most recent metrics, in recording order. -/
theorem C9_ring_capacity (ms : List FrameMetrics) (h : 60 < ms.length) :
    ms.foldl pushFrameMetric [] = ms.drop (ms.length - 60) ∧
    (ms.foldl pushFrameMetric []).length = 60 := by
  have h0 := foldl_pushFrameMetric ms [] (by simp)
  simp only [List.nil_append, List.length_nil, Nat.zero_add] at h0
  refine ⟨h0, ?_⟩
  rw [h0]
  simp only [List.length_drop]
  omega

/-- Witness for C9 at a concrete input. -/
theorem C9_ring_capacity_witness :
    (60 < (List.replicate 61 c9Metric).length) ∧
    ((List.replicate 61 c9Metric).foldl pushFrameMetric [] =
      (List.replicate 61 c9Metric).drop ((List.replicate 61 c9Metric).length - 60) ∧
     ((List.replicate 61 c9Metric).foldl pushFrameMetric []).length = 60) :=
  ⟨by decide, C9_ring_capacity (List.replicate 61 c9Metric) (by decide)⟩

-- ============================================================================
-- CLAIM C3
-- ============================================================================

unseal Rat.add Rat.mul Rat.sub Rat.inv in
/-- C3: the claim (and the repository docs) say degradation happens after
10 CONSECUTIVE frames over maxFrameTime = 33.33 ms.  The code instead
counts frames over `targetFrameTime` = 16.67 ms whose timestamps lie in a
trailing 1000 ms window:
(a) ten consecutive recorded frames of 50 ms each (every one above
33.33 ms), spaced 200 ms apart, do NOT trigger a degradation, because
only six fall inside the window;
(b) ten frames of 20 ms each (every one BELOW 33.33 ms) packed into one
second DO trigger a one-tier degradation. -/
theorem C3_degrade_window_eval :
    (∀ p ∈ c3History, p.frameTime > (3333:ℚ)/100) ∧
    c3History.length = 10 ∧
    HybridEngine.evaluateDegrade DEFAULT_PERFORMANCE_BUDGETS allCaps c3History 1800 .webgl = none ∧
    (∀ p ∈ c3HistoryB, p.frameTime < (3333:ℚ)/100) ∧
    HybridEngine.evaluateDegrade DEFAULT_PERFORMANCE_BUDGETS allCaps c3HistoryB 1090 .webgl =
      some .canvas := by
  decide

-- ============================================================================
-- CLAIM C1
-- ============================================================================

unseal Rat.add Rat.mul Rat.sub Rat.inv in
/-- C1: the claim says every capped outlier appears in the `outliers` list
of some bucket.  On `c1Points` (target 2, default config) the z-score
method flags the spike (10, 100), the percentile cap keeps it
(`outlierCount = 1`), yet every bucket of the result carries an empty
`outliers` list - createBucketSummary (lod.ts line 266) hardcodes
`outliers: []`. -/
theorem C1_outliers_never_in_buckets :
    detectOutliers c1Points { DEFAULT_LOD_CONFIG with targetPoints := 2 } =
      [⟨10, 100, none⟩] ∧
    (applyLOD c1Points 2 none DEFAULT_LOD_CONFIG).outlierCount = 1 ∧
    (applyLOD c1Points 2 none DEFAULT_LOD_CONFIG).buckets.length = 3 ∧
    ∀ b ∈ (applyLOD c1Points 2 none DEFAULT_LOD_CONFIG).buckets, b.outliers = [] := by
  decide

-- ============================================================================
-- CLAIM C8
-- ============================================================================

unseal Rat.add Rat.mul Rat.sub Rat.inv in
/-- C8 counterexample: the claim says the 10-anomaly cap keeps the most
severe anomalies first.  `c8Series` has eleven points beyond three standard
deviations (mean 5/6); the most severe one (y = -105, the largest
|y - mean|) is the last encountered, and the code's `slice(0, 10)` keeps
the first ten in encounter order, dropping it. -/
theorem C8_counterexample :
    (generateDataSummaryAnomalies [c8Series]).length = 10 ∧
    isAnomalyIn c8Series.data ⟨0, -105, none⟩ = true ∧
    (⟨0, -105, none⟩ : DataPoint) ∈ c8Series.data ∧
    (∀ a ∈ generateDataSummaryAnomalies [c8Series], a.point.y ≠ -105) ∧
    (∀ a ∈ generateDataSummaryAnomalies [c8Series],
      |a.point.y - 5/6| < |(-105 : ℚ) - 5/6|) := by
  decide

-- ============================================================================
-- CLAIM C7
-- ============================================================================

unseal Rat.add Rat.mul Rat.sub Rat.inv in
/-- C7 counterexample: the claim says that for `r > 0.7` the representative
is the EARLIEST (by x) point achieving `max_y`.  In `c7Points`
(max = 10, r = 3/4) the earliest maximum is at x = 1, but the code takes
the first point in array order with `find`, returning the x = 7 point. -/
theorem C7_counterexample :
    maxQ (c7Points.map (·.y)) = 10 ∧
    (0 < maxQ (c7Points.map (·.y)) - minQ (c7Points.map (·.y)) ∧
      7/10 < envelopeR c7Points) ∧
    ((⟨1, 10, none⟩ : TimeSeriesPoint) ∈ c7Points ∧
      ∀ p ∈ c7Points, p.y = 10 → (1 : ℚ) ≤ p.x) ∧
    (createBucketSummary c7Points 0 10 0 [] DEFAULT_LOD_CONFIG).representative =
      ⟨7, 10, none⟩ ∧
    (createBucketSummary c7Points 0 10 0 [] DEFAULT_LOD_CONFIG).representative ≠
      ⟨1, 10, none⟩ := by
  decide

/-- C7 amended: for every bucket with `max > min`, no capped outlier inside
the bucket window, and `preserveMinMax` on, with `r = (avg - min)/(max - min)`:
if `r > 0.7` the representative is the FIRST point in bucket (array) order
achieving `max_y`; if `r < 0.3` the first achieving `min_y`; for
`0.3 ≤ r ≤ 0.7` it is the synthetic point at the bucket time midpoint with
`y = avg` and id `"bucket-{index}-avg"`. -/
theorem C7_amended (bucketPts : List TimeSeriesPoint) (bucketIndex : ℤ)
    (bucketSize startTime : ℚ) (outliers : List TimeSeriesPoint) (config : LODConfig)
    (hpm : config.preserveMinMax = true)
    (hno : outliers.filter (fun o =>
      decide (startTime + (bucketIndex : ℚ) * bucketSize ≤ o.x ∧
        o.x < startTime + (bucketIndex : ℚ) * bucketSize + bucketSize)) = [])
    (hlt : minQ (bucketPts.map (·.y)) < maxQ (bucketPts.map (·.y))) :
    (7/10 < envelopeR bucketPts →
      firstPointAchieving bucketPts (maxQ (bucketPts.map (·.y)))
        (createBucketSummary bucketPts bucketIndex bucketSize startTime
          outliers config).representative) ∧
    (envelopeR bucketPts < 3/10 →
      firstPointAchieving bucketPts (minQ (bucketPts.map (·.y)))
        (createBucketSummary bucketPts bucketIndex bucketSize startTime
          outliers config).representative) ∧
    (3/10 ≤ envelopeR bucketPts → envelopeR bucketPts ≤ 7/10 →
      (createBucketSummary bucketPts bucketIndex bucketSize startTime
          outliers config).representative =
        ⟨startTime + (bucketIndex : ℚ) * bucketSize + bucketSize / 2,
          bucketAvgOf bucketPts,
          some ("bucket-" ++ toString bucketIndex ++ "-avg")⟩) := by
  have hne : bucketPts ≠ [] := by
    intro hnil
    rw [hnil] at hlt
    simp [minQ, maxQ] at hlt
  have hvne : bucketPts.map (·.y) ≠ [] := by
    simpa using hne
  have hrange : (0:ℚ) < maxQ (bucketPts.map (·.y)) - minQ (bucketPts.map (·.y)) := by
    linarith
  have hrep : (createBucketSummary bucketPts bucketIndex bucketSize startTime
      outliers config).representative =
      (if 0 < maxQ (bucketPts.map (·.y)) - minQ (bucketPts.map (·.y)) ∧
          (bucketAvgOf bucketPts - minQ (bucketPts.map (·.y))) /
            (maxQ (bucketPts.map (·.y)) - minQ (bucketPts.map (·.y))) > 7/10 then
        ((bucketPts.find? (fun p => decide (p.y = maxQ (bucketPts.map (·.y))))).getD
          (bucketPts.headD fallbackPoint))
      else if 0 < maxQ (bucketPts.map (·.y)) - minQ (bucketPts.map (·.y)) ∧
          (maxQ (bucketPts.map (·.y)) - bucketAvgOf bucketPts) /
            (maxQ (bucketPts.map (·.y)) - minQ (bucketPts.map (·.y))) > 7/10 then
        ((bucketPts.find? (fun p => decide (p.y = minQ (bucketPts.map (·.y))))).getD
          (bucketPts.headD fallbackPoint))
      else
        ⟨startTime + (bucketIndex : ℚ) * bucketSize + bucketSize / 2,
          bucketAvgOf bucketPts,
          some ("bucket-" ++ toString bucketIndex ++ "-avg")⟩) := by
    simp only [createBucketSummary, hpm, if_true, hno, bucketAvgOf]
  have hfind : ∀ v : ℚ, v ∈ bucketPts.map (·.y) →
      firstPointAchieving bucketPts v
        ((bucketPts.find? (fun p => decide (p.y = v))).getD (bucketPts.headD fallbackPoint)) := by
    intro v hv
    obtain ⟨p, hp, hpy⟩ := List.mem_map.mp hv
    have hfs : (bucketPts.find? (fun p => decide (p.y = v))).isSome :=
      List.find?_isSome.mpr ⟨p, hp, by simp [hpy]⟩
    obtain ⟨p0, hp0⟩ := Option.isSome_iff_exists.mp hfs
    rw [hp0]
    exact find?_firstPointAchieving _ _ _ hp0
  have hflip : (maxQ (bucketPts.map (·.y)) - bucketAvgOf bucketPts) /
      (maxQ (bucketPts.map (·.y)) - minQ (bucketPts.map (·.y))) =
      1 - envelopeR bucketPts := by
    rw [envelopeR, eq_sub_iff_add_eq, div_add_div_same]
    rw [show maxQ (bucketPts.map (·.y)) - bucketAvgOf bucketPts +
        (bucketAvgOf bucketPts - minQ (bucketPts.map (·.y))) =
        maxQ (bucketPts.map (·.y)) - minQ (bucketPts.map (·.y)) from by ring]
    exact div_self (ne_of_gt hrange)
  refine ⟨?_, ?_, ?_⟩
  · intro h7
    have h7a : (bucketAvgOf bucketPts - minQ (bucketPts.map (·.y))) /
        (maxQ (bucketPts.map (·.y)) - minQ (bucketPts.map (·.y))) > 7/10 := by
      simpa only [envelopeR] using h7
    rw [hrep, if_pos ⟨hrange, h7a⟩]
    exact hfind _ (maxQ_mem _ hvne)
  · intro h3
    have h3a : (bucketAvgOf bucketPts - minQ (bucketPts.map (·.y))) /
        (maxQ (bucketPts.map (·.y)) - minQ (bucketPts.map (·.y))) < 3/10 := by
      simpa only [envelopeR] using h3
    have hc1 : ¬(0 < maxQ (bucketPts.map (·.y)) - minQ (bucketPts.map (·.y)) ∧
        (bucketAvgOf bucketPts - minQ (bucketPts.map (·.y))) /
          (maxQ (bucketPts.map (·.y)) - minQ (bucketPts.map (·.y))) > 7/10) := by
      rintro ⟨-, h2⟩
      linarith
    have hc2 : (maxQ (bucketPts.map (·.y)) - bucketAvgOf bucketPts) /
        (maxQ (bucketPts.map (·.y)) - minQ (bucketPts.map (·.y))) > 7/10 := by
      rw [hflip]
      linarith
    rw [hrep, if_neg hc1, if_pos ⟨hrange, hc2⟩]
    exact hfind _ (minQ_mem _ hvne)
  · intro hr1 hr2
    have hr2a : (bucketAvgOf bucketPts - minQ (bucketPts.map (·.y))) /
        (maxQ (bucketPts.map (·.y)) - minQ (bucketPts.map (·.y))) ≤ 7/10 := by
      simpa only [envelopeR] using hr2
    have hc1 : ¬(0 < maxQ (bucketPts.map (·.y)) - minQ (bucketPts.map (·.y)) ∧
        (bucketAvgOf bucketPts - minQ (bucketPts.map (·.y))) /
          (maxQ (bucketPts.map (·.y)) - minQ (bucketPts.map (·.y))) > 7/10) := by
      rintro ⟨-, h2⟩
      linarith
    have hc2 : ¬(0 < maxQ (bucketPts.map (·.y)) - minQ (bucketPts.map (·.y)) ∧
        (maxQ (bucketPts.map (·.y)) - bucketAvgOf bucketPts) /
          (maxQ (bucketPts.map (·.y)) - minQ (bucketPts.map (·.y))) > 7/10) := by
      rintro ⟨-, h2⟩
      rw [hflip] at h2
      linarith
    rw [hrep, if_neg hc1, if_neg hc2]

unseal Rat.add Rat.mul Rat.sub Rat.inv in
/-- Witness for C7 at a concrete input: `c7Points` with bucket index 0,
size 10, start 0, no outliers, default config; its envelope position is
3/4 > 0.7, so the first branch is non-vacuous. -/
theorem C7_amended_witness :
    (DEFAULT_LOD_CONFIG.preserveMinMax = true ∧
     ([] : List TimeSeriesPoint).filter (fun o =>
       decide ((0:ℚ) + ((0:ℤ) : ℚ) * 10 ≤ o.x ∧
         o.x < (0:ℚ) + ((0:ℤ) : ℚ) * 10 + 10)) = [] ∧
     minQ (c7Points.map (·.y)) < maxQ (c7Points.map (·.y)) ∧
     7/10 < envelopeR c7Points) ∧
    ((7/10 < envelopeR c7Points →
      firstPointAchieving c7Points (maxQ (c7Points.map (·.y)))
        (createBucketSummary c7Points 0 10 0 [] DEFAULT_LOD_CONFIG).representative) ∧
     (envelopeR c7Points < 3/10 →
      firstPointAchieving c7Points (minQ (c7Points.map (·.y)))
        (createBucketSummary c7Points 0 10 0 [] DEFAULT_LOD_CONFIG).representative) ∧
     (3/10 ≤ envelopeR c7Points → envelopeR c7Points ≤ 7/10 →
      (createBucketSummary c7Points 0 10 0 [] DEFAULT_LOD_CONFIG).representative =
        ⟨(0:ℚ) + ((0:ℤ) : ℚ) * 10 + 10 / 2, bucketAvgOf c7Points,
          some ("bucket-" ++ toString (0:ℤ) ++ "-avg")⟩)) :=
  ⟨⟨by decide, by decide, by decide, by decide⟩,
    C7_amended c7Points 0 10 0 [] DEFAULT_LOD_CONFIG (by decide) (by decide) (by decide)⟩

/-- C8 amended: generateDataSummary reports as anomalies exactly the
points with `|y - mean| > 3·stddev` of their series, taken in encounter
order (series order, then point order) and capped at the FIRST ten - not
sorted by severity. -/
theorem C8_amended (data : List SeriesData) :
    generateDataSummaryAnomalies data =
      (data.flatMap (fun series =>
        (series.data.filter (isAnomalyIn series.data)).map (fun p =>
          { series := series.name
            point := p
            description := "Anomalous value " ++ toString p.y ++
              " detected in " ++ series.name }))).take 10 ∧
    ∀ a ∈ generateDataSummaryAnomalies data,
      ∃ s ∈ data, a.point ∈ s.data ∧ isAnomalyIn s.data a.point = true := by
  have hmain : generateDataSummaryAnomalies data =
      (data.flatMap (fun series =>
        (series.data.filter (isAnomalyIn series.data)).map (fun p =>
          { series := series.name
            point := p
            description := "Anomalous value " ++ toString p.y ++
              " detected in " ++ series.name }))).take 10 := by
    unfold generateDataSummaryAnomalies
    by_cases hd : data.length = 0
    · rw [if_pos hd]
      obtain rfl := List.length_eq_zero.mp hd
      simp
    · rw [if_neg hd]
      congr 1
      rw [List.foldl_ext _ (fun acc series => acc ++
          (series.data.filter (isAnomalyIn series.data)).map (fun p =>
            { series := series.name
              point := p
              description := "Anomalous value " ++ toString p.y ++
                " detected in " ++ series.name })) _ ?_]
      · rw [foldl_append_flatMap]
        simp
      · intro acc s hs
        by_cases h0 : s.data.length = 0
        · rw [if_pos h0]
          obtain hnil := List.length_eq_zero.mp h0
          simp [hnil]
        · rw [if_neg h0]
  refine ⟨hmain, ?_⟩
  intro a ha
  rw [hmain] at ha
  obtain ⟨s, hs, ha3⟩ := List.mem_flatMap.mp (List.mem_of_mem_take ha)
  obtain ⟨p, hp, rfl⟩ := List.mem_map.mp ha3
  have hp2 := List.mem_filter.mp hp
  exact ⟨s, hs, hp2.1, hp2.2⟩

-- ============================================================================
-- CLAIM C10
-- ============================================================================

theorem seriesHidden_markVisible (s : SeriesData) :
    seriesHidden (markVisible s) = seriesHidden s := by
  rcases s with ⟨id, name, color, data, visible⟩
  rcases visible with - | b
  · rfl
  · rcases b <;> rfl

theorem markVisible_data (s : SeriesData) : (markVisible s).data = s.data := rfl

theorem markVisible_id (s : SeriesData) : (markVisible s).id = s.id := rfl

/-- C10: a series with `visible` undefined is treated as visible, and one
with `visible = false` contributes nothing: normalising an undefined flag
to an explicit `true` (markVisible) changes neither hit testing (SVG and
WebGL), nor the spatial-index cells, nor region queries; and prepending a
`visible = false` series leaves all of them unchanged. -/
theorem C10_undefined_visible_is_visible (data : List SeriesData) (ctx : RenderContext)
    (x y radius x1 y1 x2 y2 : ℚ) (key : ℤ × ℤ) (sid sname scolor : String)
    (sdata : List DataPoint) :
    SVGRenderer.hitTest (data.map markVisible) ctx x y radius =
      SVGRenderer.hitTest data ctx x y radius ∧
    WebGLRenderer.hitTest (data.map markVisible) ctx x y radius =
      WebGLRenderer.hitTest data ctx x y radius ∧
    CanvasRenderer.spatialCell (data.map markVisible) ctx.xScale ctx.yScale key =
      CanvasRenderer.spatialCell data ctx.xScale ctx.yScale key ∧
    SVGRenderer.getPointsInRegion (data.map markVisible) ctx x1 y1 x2 y2 =
      SVGRenderer.getPointsInRegion data ctx x1 y1 x2 y2 ∧
    SVGRenderer.hitTest
        ({ id := sid, name := sname, color := scolor, data := sdata,
           visible := some false } :: data) ctx x y radius =
      SVGRenderer.hitTest data ctx x y radius ∧
    WebGLRenderer.hitTest
        ({ id := sid, name := sname, color := scolor, data := sdata,
           visible := some false } :: data) ctx x y radius =
      WebGLRenderer.hitTest data ctx x y radius ∧
    CanvasRenderer.spatialCell
        ({ id := sid, name := sname, color := scolor, data := sdata,
           visible := some false } :: data) ctx.xScale ctx.yScale key =
      CanvasRenderer.spatialCell data ctx.xScale ctx.yScale key := by
  refine ⟨?_, ?_, ?_, ?_, ?_, ?_, ?_⟩
  · unfold SVGRenderer.hitTest
    rw [List.length_map, List.foldl_map]
    rcases data with - | ⟨s, rest⟩
    · rfl
    · simp only [List.length_cons]
      apply List.foldl_ext
      intro acc s2 hs2
      rw [seriesHidden_markVisible, markVisible_data, markVisible_id]
  · unfold WebGLRenderer.hitTest
    rw [List.length_map, List.foldl_map]
    rcases data with - | ⟨s, rest⟩
    · rfl
    · simp only [List.length_cons]
      apply List.foldl_ext
      intro acc s2 hs2
      rw [seriesHidden_markVisible, markVisible_data, markVisible_id]
  · unfold CanvasRenderer.spatialCell
    simp only [List.filter_map, List.flatMap_map, Function.comp_def, markVisible_data]
    congr 1
    apply List.filter_congr
    intro s2 hs2
    rw [seriesHidden_markVisible]
  · unfold SVGRenderer.getPointsInRegion
    rw [List.foldl_map]
    apply List.foldl_ext
    intro acc s2 hs2
    rw [seriesHidden_markVisible, markVisible_data]
  · unfold SVGRenderer.hitTest
    rcases data with - | ⟨s, rest⟩
    · rfl
    · rfl
  · unfold WebGLRenderer.hitTest
    rcases data with - | ⟨s, rest⟩
    · rfl
    · rfl
  · unfold CanvasRenderer.spatialCell
    rfl

-- ============================================================================
-- CLAIM C2: SCAN LEMMAS
-- ============================================================================

theorem scanInv_of_done (dstar : ℚ) (pstar : DataPoint) (o : Option HitTestResult)
    (h : scanDone dstar pstar o) : scanInv dstar pstar o := by
  obtain ⟨h0, rfl, hd, hp⟩ := h
  exact ⟨le_of_eq hd.symm, fun _ => hp⟩

theorem hitTestStep_preserves_done (radius dstar : ℚ) (pstar : DataPoint)
    (cand : HitTestResult) (st : Option HitTestResult)
    (hdone : scanDone dstar pstar st)
    (hge : sqrtLtQ cand.distSq radius = true → dstar ≤ cand.distSq) :
    scanDone dstar pstar (hitTestStep radius cand st) := by
  obtain ⟨h0, rfl, hd, hp⟩ := hdone
  unfold hitTestStep
  by_cases hc : (sqrtLtQ cand.distSq radius && ltMinDist cand.distSq (some h0)) = true
  · rw [Bool.and_eq_true] at hc
    have h1 := hge hc.1
    have h2 : cand.distSq < h0.distSq := by simpa [ltMinDist] using hc.2
    rw [hd] at h2
    exact absurd h1 (not_le.mpr h2)
  · rw [if_neg hc]
    exact ⟨h0, rfl, hd, hp⟩

theorem hitTestStep_inv (radius dstar : ℚ) (pstar : DataPoint)
    (cand : HitTestResult) (st : Option HitTestResult)
    (hinv : scanInv dstar pstar st)
    (ha : sqrtLtQ cand.distSq radius = true →
      dstar ≤ cand.distSq ∧ (cand.distSq = dstar → cand.point = pstar)) :
    scanInv dstar pstar (hitTestStep radius cand st) := by
  unfold hitTestStep
  by_cases hc : (sqrtLtQ cand.distSq radius && ltMinDist cand.distSq st) = true
  · rw [if_pos hc]
    rw [Bool.and_eq_true] at hc
    exact ⟨(ha hc.1).1, (ha hc.1).2⟩
  · rw [if_neg hc]
    exact hinv

theorem hitTestStep_establishes (radius dstar : ℚ) (pstar : DataPoint)
    (cand : HitTestResult) (st : Option HitTestResult)
    (hinv : scanInv dstar pstar st)
    (hcond : sqrtLtQ cand.distSq radius = true)
    (hd : cand.distSq = dstar) (hp : cand.point = pstar) :
    scanDone dstar pstar (hitTestStep radius cand st) := by
  unfold hitTestStep
  rcases st with - | h0
  · rw [if_pos (by simp [hcond, ltMinDist])]
    exact ⟨cand, rfl, hd, hp⟩
  · obtain ⟨h1, h2⟩ := hinv
    rcases eq_or_lt_of_le h1 with heq | hlt
    · have hcfalse : ¬(sqrtLtQ cand.distSq radius && ltMinDist cand.distSq (some h0)) = true := by
        rw [Bool.and_eq_true]
        rintro ⟨-, hlt2⟩
        have h3 : cand.distSq < h0.distSq := by simpa [ltMinDist] using hlt2
        rw [hd, ← heq] at h3
        exact lt_irrefl _ h3
      rw [if_neg hcfalse]
      exact ⟨h0, rfl, heq.symm, h2 heq.symm⟩
    · have hctrue : (sqrtLtQ cand.distSq radius && ltMinDist cand.distSq (some h0)) = true := by
        rw [Bool.and_eq_true]
        refine ⟨hcond, ?_⟩
        simp only [ltMinDist, decide_eq_true_eq]
        rw [hd]
        exact hlt
      rw [if_pos hctrue]
      exact ⟨cand, rfl, hd, hp⟩

theorem scanClosest_done {α : Type} (radius dstar : ℚ) (pstar : DataPoint)
    (mk : α → HitTestResult) (l : List α) :
    ∀ st, scanDone dstar pstar st →
      (∀ a ∈ l, sqrtLtQ (mk a).distSq radius = true → dstar ≤ (mk a).distSq) →
      scanDone dstar pstar (scanClosest radius mk l st) := by
  induction l with
  | nil =>
    intro st h _
    exact h
  | cons a l ih =>
    intro st h hall
    simp only [scanClosest, List.foldl_cons]
    exact ih _ (hitTestStep_preserves_done _ _ _ _ _ h (hall a (List.mem_cons_self a l)))
      (fun b hb => hall b (List.mem_cons_of_mem _ hb))

theorem scanClosest_main {α : Type} (radius dstar : ℚ) (pstar : DataPoint)
    (mk : α → HitTestResult) (l : List α) :
    ∀ st, scanInv dstar pstar st →
      (∀ a ∈ l, sqrtLtQ (mk a).distSq radius = true →
        dstar ≤ (mk a).distSq ∧ ((mk a).distSq = dstar → (mk a).point = pstar)) →
      ((∃ a ∈ l, sqrtLtQ (mk a).distSq radius = true ∧ (mk a).distSq = dstar ∧
        (mk a).point = pstar) ∨ scanDone dstar pstar st) →
      scanDone dstar pstar (scanClosest radius mk l st) := by
  induction l with
  | nil =>
    intro st _ _ hex
    rcases hex with ⟨a, ha, -⟩ | hdone
    · exact absurd ha (List.not_mem_nil a)
    · exact hdone
  | cons a l ih =>
    intro st hinv hall hex
    simp only [scanClosest, List.foldl_cons]
    have hstep_inv : scanInv dstar pstar (hitTestStep radius (mk a) st) :=
      hitTestStep_inv _ _ _ _ _ hinv (hall a (List.mem_cons_self a l))
    rcases hex with ⟨b, hb, hbc, hbd, hbp⟩ | hdone
    · rcases List.mem_cons.mp hb with rfl | hb2
      · have hdone2 : scanDone dstar pstar (hitTestStep radius (mk b) st) :=
          hitTestStep_establishes _ _ _ _ _ hinv hbc hbd hbp
        exact ih _ hstep_inv (fun c hc => hall c (List.mem_cons_of_mem _ hc))
          (Or.inr hdone2)
      · exact ih _ hstep_inv (fun c hc => hall c (List.mem_cons_of_mem _ hc))
          (Or.inl ⟨b, hb2, hbc, hbd, hbp⟩)
    · have hdone2 := hitTestStep_preserves_done _ _ _ _ _ hdone
        (fun hc => (hall a (List.mem_cons_self a l) hc).1)
      exact ih _ hstep_inv (fun c hc => hall c (List.mem_cons_of_mem _ hc)) (Or.inr hdone2)

-- ============================================================================
-- CLAIM C2: RENDERERS AS SCANS
-- ============================================================================

theorem svgMk_point (ctx : RenderContext) (x y : ℚ) (a : String × DataPoint) :
    (svgMk ctx x y a).point = a.2 := rfl

theorem svgMk_distSq (ctx : RenderContext) (x y : ℚ) (a : String × DataPoint) :
    (svgMk ctx x y a).distSq = queryDistSq ctx x y a.2 := rfl

theorem webglMk_point (ctx : RenderContext) (x y : ℚ) (a : String × DataPoint) :
    (webglMk ctx x y a).point = a.2 := rfl

theorem webglMk_distSq (ctx : RenderContext) (x y : ℚ) (a : String × DataPoint) :
    (webglMk ctx x y a).distSq = queryDistSq ctx x y a.2 := by
  simp only [webglMk, queryDistSq]
  ring

theorem canvasMk_point (data : List SeriesData) (ctx : RenderContext) (x y : ℚ)
    (p : DataPoint) : (canvasMk data ctx x y p).point = p := rfl

theorem canvasMk_distSq (data : List SeriesData) (ctx : RenderContext) (x y : ℚ)
    (p : DataPoint) : (canvasMk data ctx x y p).distSq = queryDistSq ctx x y p := rfl

theorem svgHitTest_eq_scan (data : List SeriesData) (ctx : RenderContext) (x y radius : ℚ) :
    SVGRenderer.hitTest data ctx x y radius =
      if data.length = 0 then none
      else scanClosest radius (svgMk ctx x y) (visibleCandidates data) none := by
  unfold SVGRenderer.hitTest
  by_cases hd : data.length = 0
  · rw [if_pos hd, if_pos hd]
  · rw [if_neg hd, if_neg hd]
    unfold scanClosest visibleCandidates
    rw [foldl_flatMap, foldl_filter_if]
    apply List.foldl_ext
    intro acc s hs
    rw [List.foldl_map]
    by_cases hh : seriesHidden s
    · simp [hh]
    · simp only [Bool.not_eq_true] at hh
      rw [if_neg (by simp [hh]), if_pos (by simp [hh])]
      rfl

theorem webglHitTest_eq_scan (data : List SeriesData) (ctx : RenderContext) (x y radius : ℚ) :
    WebGLRenderer.hitTest data ctx x y radius =
      if data.length = 0 then none
      else scanClosest radius (webglMk ctx x y) (visibleCandidates data) none := by
  unfold WebGLRenderer.hitTest
  by_cases hd : data.length = 0
  · rw [if_pos hd, if_pos hd]
  · rw [if_neg hd, if_neg hd]
    unfold scanClosest visibleCandidates
    rw [foldl_flatMap, foldl_filter_if]
    apply List.foldl_ext
    intro acc s hs
    rw [List.foldl_map]
    by_cases hh : seriesHidden s
    · simp [hh]
    · simp only [Bool.not_eq_true] at hh
      rw [if_neg (by simp [hh]), if_pos (by simp [hh])]
      rfl

theorem canvasHitTest_eq_scan (data : List SeriesData) (ctx : RenderContext) (x y radius : ℚ) :
    CanvasRenderer.hitTest data ctx x y radius =
      if data.length = 0 then none
      else scanClosest radius (canvasMk data ctx x y) (canvasNeighborhood data ctx x y) none := by
  unfold CanvasRenderer.hitTest
  by_cases hd : data.length = 0
  · rw [if_pos hd, if_pos hd]
  · rw [if_neg hd, if_neg hd]
    unfold scanClosest canvasNeighborhood
    simp only [foldl_flatMap]
    rfl

-- ============================================================================
-- CLAIM C2: CANDIDATE MEMBERSHIP AND CELL GEOMETRY
-- ============================================================================

theorem mem_visibleCandidates (data : List SeriesData) (a : String × DataPoint) :
    a ∈ visibleCandidates data ↔
      ∃ s ∈ data, seriesHidden s = false ∧ a.1 = s.id ∧ a.2 ∈ s.data := by
  unfold visibleCandidates
  simp only [List.mem_flatMap, List.mem_filter, List.mem_map, Bool.not_eq_true']
  constructor
  · rintro ⟨s, ⟨hs, hhid⟩, p, hp, rfl⟩
    exact ⟨s, hs, hhid, rfl, hp⟩
  · rintro ⟨s, hs, hhid, h1, h2⟩
    exact ⟨s, ⟨hs, hhid⟩, a.2, h2, by rw [← h1]⟩

theorem mem_spatialCell (data : List SeriesData) (xs ys : ℚ → ℚ) (key : ℤ × ℤ)
    (q : DataPoint) :
    q ∈ CanvasRenderer.spatialCell data xs ys key ↔
      ∃ s ∈ data, seriesHidden s = false ∧ q ∈ s.data ∧
        ⌊xs q.x / (CanvasRenderer.hitTestRadius * 2)⌋ = key.1 ∧
        ⌊ys q.y / (CanvasRenderer.hitTestRadius * 2)⌋ = key.2 := by
  unfold CanvasRenderer.spatialCell
  simp only [List.mem_flatMap, List.mem_filter, Bool.not_eq_true', decide_eq_true_eq]
  constructor
  · rintro ⟨s, ⟨hs, hh⟩, hq, h1, h2⟩
    exact ⟨s, hs, hh, hq, h1, h2⟩
  · rintro ⟨s, hs, hh, hq, h1, h2⟩
    exact ⟨s, ⟨hs, hh⟩, hq, h1, h2⟩

theorem mem_canvasNeighborhood (data : List SeriesData) (ctx : RenderContext) (x y : ℚ)
    (q : DataPoint) :
    q ∈ canvasNeighborhood data ctx x y ↔
      ∃ dx ∈ ([-1, 0, 1] : List ℤ), ∃ dy ∈ ([-1, 0, 1] : List ℤ),
        q ∈ CanvasRenderer.spatialCell data ctx.xScale ctx.yScale
          (⌊(x - ctx.margin.left) / (CanvasRenderer.hitTestRadius * 2)⌋ + dx,
           ⌊(y - ctx.margin.top) / (CanvasRenderer.hitTestRadius * 2)⌋ + dy) := by
  unfold canvasNeighborhood
  simp only [List.mem_flatMap]

theorem floor_near (u v c : ℚ) (hc : 0 < c) (h : |u - v| < c) :
    ⌊v / c⌋ - 1 ≤ ⌊u / c⌋ ∧ ⌊u / c⌋ ≤ ⌊v / c⌋ + 1 := by
  rw [abs_lt] at h
  constructor
  · have h3 : v - c ≤ u := by linarith
    have h4 : (v - c) / c ≤ u / c := (div_le_div_iff_of_pos_right hc).mpr h3
    rw [sub_div, div_self (ne_of_gt hc)] at h4
    calc ⌊v / c⌋ - 1 = ⌊v / c - 1⌋ := (Int.floor_sub_int (v / c) 1).symm
      _ ≤ ⌊u / c⌋ := Int.floor_le_floor h4
  · have h3 : u ≤ v + c := by linarith
    have h4 : u / c ≤ (v + c) / c := (div_le_div_iff_of_pos_right hc).mpr h3
    rw [add_div, div_self (ne_of_gt hc)] at h4
    calc ⌊u / c⌋ ≤ ⌊v / c + 1⌋ := Int.floor_le_floor h4
      _ = ⌊v / c⌋ + 1 := Int.floor_add_int (v / c) 1

-- ============================================================================
-- CLAIM C2: MAIN THEOREMS
-- ============================================================================

unseal Rat.add Rat.mul Rat.sub Rat.inv in
/-- C2 counterexample: the claim says the three surfaces always identify
the same point as the spatial index, or all return none.  With identity
scales, one visible point at pixel (50, 0) and the query (0, 0) with
radius 100, the SVG and WebGL linear scans find the point
(distance 50 < 100), but the Canvas hitTest scans only the 3x3 cell
neighbourhood of the query (cells of size 20), misses cell (2, 0), and
returns none. -/
theorem C2_counterexample :
    (SVGRenderer.hitTest [c2Series] identityCtx 0 0 100).map (·.point) =
      some ⟨50, 0, none⟩ ∧
    (WebGLRenderer.hitTest [c2Series] identityCtx 0 0 100).map (·.point) =
      some ⟨50, 0, none⟩ ∧
    CanvasRenderer.hitTest [c2Series] identityCtx 0 0 100 = none := by
  decide

/-- C2 amended: SVG, Canvas and WebGL hitTest agree whenever the query
radius is at most the spatial-index cell size (20 px = 2 x hitTestRadius)
and a unique visible point attains the minimal distance among the points
within the radius: all three then identify exactly that point.  (For
larger radii the Canvas index-based hitTest can miss points the linear
scans find - see the counterexample.) -/
theorem C2_amended (data : List SeriesData) (ctx : RenderContext)
    (x y radius : ℚ) (pstar : DataPoint)
    (hr : radius ≤ 20)
    (hp : ∃ s ∈ data, seriesHidden s = false ∧ pstar ∈ s.data)
    (hc : sqrtLtQ (queryDistSq ctx x y pstar) radius = true)
    (hmin : ∀ s ∈ data, seriesHidden s = false → ∀ q ∈ s.data,
      sqrtLtQ (queryDistSq ctx x y q) radius = true →
      queryDistSq ctx x y pstar ≤ queryDistSq ctx x y q ∧
      (queryDistSq ctx x y q = queryDistSq ctx x y pstar → q = pstar)) :
    (SVGRenderer.hitTest data ctx x y radius).map (·.point) = some pstar ∧
    (CanvasRenderer.hitTest data ctx x y radius).map (·.point) = some pstar ∧
    (WebGLRenderer.hitTest data ctx x y radius).map (·.point) = some pstar := by
  obtain ⟨s0, hs0, hs0v, hs0p⟩ := hp
  have hd : ¬(data.length = 0) := by
    intro h
    rw [List.length_eq_zero] at h
    subst h
    exact absurd hs0 (List.not_mem_nil s0)
  have hall_lin : ∀ a ∈ visibleCandidates data,
      sqrtLtQ (queryDistSq ctx x y a.2) radius = true →
      queryDistSq ctx x y pstar ≤ queryDistSq ctx x y a.2 ∧
      (queryDistSq ctx x y a.2 = queryDistSq ctx x y pstar → a.2 = pstar) := by
    intro a ha hcond
    obtain ⟨s, hs, hvis, -, hmem⟩ := (mem_visibleCandidates data a).mp ha
    exact hmin s hs hvis a.2 hmem hcond
  have hmem_pstar : (s0.id, pstar) ∈ visibleCandidates data :=
    (mem_visibleCandidates data _).mpr ⟨s0, hs0, hs0v, rfl, hs0p⟩
  refine ⟨?_, ?_, ?_⟩
  · -- SVG
    have hsvg := scanClosest_main radius (queryDistSq ctx x y pstar) pstar
      (svgMk ctx x y) (visibleCandidates data) none True.intro
      (fun a ha => by
        rw [svgMk_distSq, svgMk_point]
        exact hall_lin a ha)
      (Or.inl ⟨(s0.id, pstar), hmem_pstar, by rw [svgMk_distSq]; exact hc,
        by rw [svgMk_distSq], by rw [svgMk_point]⟩)
    obtain ⟨h, hEq, hdist, hpt⟩ := hsvg
    rw [svgHitTest_eq_scan, if_neg hd, hEq]
    simp [hpt]
  · -- Canvas
    have hall_cv : ∀ q ∈ canvasNeighborhood data ctx x y,
        sqrtLtQ (queryDistSq ctx x y q) radius = true →
        queryDistSq ctx x y pstar ≤ queryDistSq ctx x y q ∧
        (queryDistSq ctx x y q = queryDistSq ctx x y pstar → q = pstar) := by
      intro q hq hcond
      obtain ⟨dx, -, dy, -, hcell⟩ := (mem_canvasNeighborhood data ctx x y q).mp hq
      obtain ⟨s, hs, hvis, hmem, -, -⟩ := (mem_spatialCell _ _ _ _ _).mp hcell
      exact hmin s hs hvis q hmem hcond
    have hcs : (0:ℚ) < CanvasRenderer.hitTestRadius * 2 := by
      norm_num [CanvasRenderer.hitTestRadius]
    have hsq := hc
    rw [sqrtLtQ, decide_eq_true_eq] at hsq
    obtain ⟨hrpos, hlt⟩ := hsq
    have hrr : radius * radius ≤ 400 := by nlinarith
    have hxabs : |ctx.xScale pstar.x - (x - ctx.margin.left)| <
        CanvasRenderer.hitTestRadius * 2 := by
      rw [queryDistSq] at hlt
      rw [show CanvasRenderer.hitTestRadius * 2 = (20:ℚ) from by
        norm_num [CanvasRenderer.hitTestRadius]]
      nlinarith [sq_abs (ctx.xScale pstar.x - (x - ctx.margin.left)),
        abs_nonneg (ctx.xScale pstar.x - (x - ctx.margin.left)),
        sq_nonneg (ctx.yScale pstar.y - (y - ctx.margin.top))]
    have hyabs : |ctx.yScale pstar.y - (y - ctx.margin.top)| <
        CanvasRenderer.hitTestRadius * 2 := by
      rw [queryDistSq] at hlt
      rw [show CanvasRenderer.hitTestRadius * 2 = (20:ℚ) from by
        norm_num [CanvasRenderer.hitTestRadius]]
      nlinarith [sq_abs (ctx.yScale pstar.y - (y - ctx.margin.top)),
        abs_nonneg (ctx.yScale pstar.y - (y - ctx.margin.top)),
        sq_nonneg (ctx.xScale pstar.x - (x - ctx.margin.left))]
    obtain ⟨hx1, hx2⟩ := floor_near (ctx.xScale pstar.x) (x - ctx.margin.left)
      (CanvasRenderer.hitTestRadius * 2) hcs hxabs
    obtain ⟨hy1, hy2⟩ := floor_near (ctx.yScale pstar.y) (y - ctx.margin.top)
      (CanvasRenderer.hitTestRadius * 2) hcs hyabs
    have hex_cv : pstar ∈ canvasNeighborhood data ctx x y := by
      rw [mem_canvasNeighborhood]
      refine ⟨⌊ctx.xScale pstar.x / (CanvasRenderer.hitTestRadius * 2)⌋ -
        ⌊(x - ctx.margin.left) / (CanvasRenderer.hitTestRadius * 2)⌋, ?_,
        ⌊ctx.yScale pstar.y / (CanvasRenderer.hitTestRadius * 2)⌋ -
        ⌊(y - ctx.margin.top) / (CanvasRenderer.hitTestRadius * 2)⌋, ?_, ?_⟩
      · have : ⌊ctx.xScale pstar.x / (CanvasRenderer.hitTestRadius * 2)⌋ -
            ⌊(x - ctx.margin.left) / (CanvasRenderer.hitTestRadius * 2)⌋ = -1 ∨
            ⌊ctx.xScale pstar.x / (CanvasRenderer.hitTestRadius * 2)⌋ -
            ⌊(x - ctx.margin.left) / (CanvasRenderer.hitTestRadius * 2)⌋ = 0 ∨
            ⌊ctx.xScale pstar.x / (CanvasRenderer.hitTestRadius * 2)⌋ -
            ⌊(x - ctx.margin.left) / (CanvasRenderer.hitTestRadius * 2)⌋ = 1 := by
          omega
        rcases this with h | h | h <;> simp [h]
      · have : ⌊ctx.yScale pstar.y / (CanvasRenderer.hitTestRadius * 2)⌋ -
            ⌊(y - ctx.margin.top) / (CanvasRenderer.hitTestRadius * 2)⌋ = -1 ∨
            ⌊ctx.yScale pstar.y / (CanvasRenderer.hitTestRadius * 2)⌋ -
            ⌊(y - ctx.margin.top) / (CanvasRenderer.hitTestRadius * 2)⌋ = 0 ∨
            ⌊ctx.yScale pstar.y / (CanvasRenderer.hitTestRadius * 2)⌋ -
            ⌊(y - ctx.margin.top) / (CanvasRenderer.hitTestRadius * 2)⌋ = 1 := by
          omega
        rcases this with h | h | h <;> simp [h]
      · rw [mem_spatialCell]
        exact ⟨s0, hs0, hs0v, hs0p, by omega, by omega⟩
    have hcv := scanClosest_main radius (queryDistSq ctx x y pstar) pstar
      (canvasMk data ctx x y) (canvasNeighborhood data ctx x y) none True.intro
      (fun q hq => by
        rw [canvasMk_distSq, canvasMk_point]
        exact hall_cv q hq)
      (Or.inl ⟨pstar, hex_cv, by rw [canvasMk_distSq]; exact hc,
        by rw [canvasMk_distSq], by rw [canvasMk_point]⟩)
    obtain ⟨h, hEq, hdist, hpt⟩ := hcv
    rw [canvasHitTest_eq_scan, if_neg hd, hEq]
    simp [hpt]
  · -- WebGL
    have hgl := scanClosest_main radius (queryDistSq ctx x y pstar) pstar
      (webglMk ctx x y) (visibleCandidates data) none True.intro
      (fun a ha => by
        rw [webglMk_distSq, webglMk_point]
        exact hall_lin a ha)
      (Or.inl ⟨(s0.id, pstar), hmem_pstar, by rw [webglMk_distSq]; exact hc,
        by rw [webglMk_distSq], by rw [webglMk_point]⟩)
    obtain ⟨h, hEq, hdist, hpt⟩ := hgl
    rw [webglHitTest_eq_scan, if_neg hd, hEq]
    simp [hpt]

unseal Rat.add Rat.mul Rat.sub Rat.inv in
/-- Witness for C2 at a concrete input: one visible series with points at
pixels (1,0) and (30,0), query (0,0) with radius 10; only (1,0) is within
the radius, so it is the unique nearest point and all three renderers
identify it. -/
theorem C2_amended_witness :
    ((10:ℚ) ≤ 20 ∧
     (∃ s ∈ [c2WitnessSeries], seriesHidden s = false ∧
       (⟨1, 0, none⟩ : DataPoint) ∈ s.data) ∧
     sqrtLtQ (queryDistSq identityCtx 0 0 ⟨1, 0, none⟩) 10 = true ∧
     (∀ s ∈ [c2WitnessSeries], seriesHidden s = false → ∀ q ∈ s.data,
       sqrtLtQ (queryDistSq identityCtx 0 0 q) 10 = true →
       queryDistSq identityCtx 0 0 ⟨1, 0, none⟩ ≤ queryDistSq identityCtx 0 0 q ∧
       (queryDistSq identityCtx 0 0 q = queryDistSq identityCtx 0 0 ⟨1, 0, none⟩ →
         q = ⟨1, 0, none⟩))) ∧
    ((SVGRenderer.hitTest [c2WitnessSeries] identityCtx 0 0 10).map (·.point) =
      some ⟨1, 0, none⟩ ∧
     (CanvasRenderer.hitTest [c2WitnessSeries] identityCtx 0 0 10).map (·.point) =
      some ⟨1, 0, none⟩ ∧
     (WebGLRenderer.hitTest [c2WitnessSeries] identityCtx 0 0 10).map (·.point) =
      some ⟨1, 0, none⟩) :=
  ⟨⟨by decide, by decide, by decide, by decide⟩,
    C2_amended [c2WitnessSeries] identityCtx 0 0 10 ⟨1, 0, none⟩
      (by decide) (by decide) (by decide) (by decide)⟩
